import Mathlib

/-!
# Verification of the upload gateway (`src/frontend/pages/api/upload.ts`)

Shallow embedding of the Next.js API route handler that authenticates a
caller, stages one multipart file upload to temporary storage, validates it,
relays it to a Flask backend and translates the backend's JSON reply into the
caller-facing response.  The handler is an asynchronous JavaScript function;
we model it as a pure function from a `Request` record — which packages the
HTTP method, the Clerk authentication results, the outcomes of the filesystem
and formidable operations and the outcome of the `fetch` to the backend — to
an `Outcome` record holding the HTTP status, the `Allow` header, the JSON
body, and the ordered list of observable side events (file unlinks and the
response write), mirroring the source's control flow line by line.
-/

/-- A JSON value, used for the untrusted `data` field of the backend reply
(the gateway passes it through without inspecting its shape). -/
inductive Json where
  | null : Json
  | bool (b : Bool) : Json
  | num (n : Int) : Json
  | str (s : String) : Json
  | arr (xs : List Json) : Json
  | obj (kvs : List (String × Json)) : Json

/-- The parsed JSON body of a backend reply, as the handler reads it
(`interface BackendResponse` in the source): each field may be absent
(`none`), since the reply is untrusted input. -/
structure BackendResponse where
  success : Option Bool
  message : Option String
  data : Option Json

/-- One file reported by formidable: its staged path on disk
(`filepath`), and the `originalFilename` and `mimetype` declared by the
client (absent fields modelled as `none`). -/
structure UploadedFile where
  filepath : String
  originalFilename : Option String
  mimetype : Option String

/-- The value of `files.eventLogFile` after a successful `form.parse`:
absent, a single file, or an array of files (formidable returns an array
when several files arrive under the same field name). -/
inductive FileField where
  | missing : FileField
  | single (f : UploadedFile) : FileField
  | multiple (fs : List UploadedFile) : FileField

/-- Outcome of the `fetch` to the backend inside the `try` block:
either an exception (connection failure, or `backendResponse.json()`
throwing on a malformed body — both caught as `proxyError`, whose
`.message` we record), or a reply with an HTTP status and a parsed body. -/
inductive FetchResult where
  | transportError (msg : String) : FetchResult
  | reply (status : Nat) (body : BackendResponse) : FetchResult

/-- Everything the handler's control flow depends on: the request method,
the Clerk results (`userId`, the awaited `getToken()`), whether creating
the temp upload directory succeeded, the formidable parse result, the
`NEXT_PUBLIC_BACKEND_API_URL` environment variable (`none` when unset),
and the backend fetch outcome. -/
structure Request where
  method : String
  userId : Option String
  token : Option String
  dirCreation : Except String Unit
  parseResult : Except String FileField
  backendApiUrl : Option String
  fetchResult : FetchResult

/-- An observable side event of the handler, in program order: unlinking a
staged file (`fs.unlinkSync`) or writing the HTTP response (`res.json`). -/
inductive Ev where
  | unlink (path : String) : Ev
  | respond : Ev

/-- The JSON body the handler sends: a bare `{ message }` object, the
envelope built on the backend-failure path (lines 136–140 of the source,
with `success`, `message` and the optional pass-through `data`), or the
backend body forwarded verbatim on the success path (line 143). -/
inductive RespBody where
  | msgOnly (message : String) : RespBody
  | envelope (success : Bool) (message : String) (data : Option Json) : RespBody
  | passthrough (body : BackendResponse) : RespBody

/-- What the handler produced: HTTP status, the `Allow` header if set, the
JSON body, and the ordered event trace. -/
structure Outcome where
  status : Nat
  allow : Option (List String)
  body : RespBody
  events : List Ev

/-- JavaScript truthiness of an optional string: `undefined`/`null` and the
empty string are falsy. -/
def strTruthy : Option String → Bool
  | none => false
  | some s => !(s == "")

/-- `allowedMimeTypes` from line 90 of the source. -/
def allowedMimeTypes : List String :=
  ["text/csv", "application/xml", "application/xes", "application/vnd.ms-excel"]

/-- `allowedExtensions` from line 91 of the source. -/
def allowedExtensions : List String := [".csv", ".xes", ".xlsx"]

/-- The suffix of a character list starting at its rightmost `.`, if any. -/
def lastDotSuffix : List Char → Option (List Char)
  | [] => none
  | c :: rest =>
    match lastDotSuffix rest with
    | some s => some s
    | none => if c = '.' then some (c :: rest) else none

/-- The characters after the last path separator. -/
def basenameChars (cs : List Char) : List Char :=
  cs.foldl (fun acc c => if c = '/' then [] else acc ++ [c]) []

/-- `path.extname(name).toLowerCase()` (line 93): the extension of the
basename from its last dot, empty when there is no dot or the only dot is
the basename's first character, lower-cased. -/
def extnameLower (name : String) : String :=
  let base := basenameChars name.toList
  match lastDotSuffix base with
  | none => ""
  | some s => if s.length = base.length then "" else String.mk (s.map Char.toLower)

/-- The rejection condition of line 94:
`!mimetype || (!allowedMimeTypes.includes(mimetype) && !allowedExtensions.includes(fileExt))`. -/
def invalidFileCond (mimetype : Option String) (fileExt : String) : Bool :=
  !(strTruthy mimetype) ||
    (!(allowedMimeTypes.contains (mimetype.getD "")) &&
     !(allowedExtensions.contains fileExt))

/-- The validator as a predicate on the declared filename and content-type:
`true` when the file passes the check of lines 93–94 and the handler
proceeds to the relay. -/
def acceptsFile (originalFilename : Option String) (mimetype : Option String) : Bool :=
  !(invalidFileCond mimetype (extnameLower (originalFilename.getD "")))

/-- `${persistentFile.mimetype || fileExt}` from the rejection message of
line 101: the declared content-type when truthy, otherwise the extension. -/
def receivedOf (mimetype : Option String) (fileExt : String) : String :=
  match mimetype with
  | some m => if m == "" then fileExt else m
  | none => fileExt

/-- `backendResponse.ok` of the Fetch API: status in the range 200–299. -/
def resOk (status : Nat) : Bool := decide (200 ≤ status ∧ status ≤ 299)

/-- The backend-failure envelope of lines 136–140: `success` defaults to
`false` when the field is `undefined`, `message` falls back to the fixed
string when falsy, `data` is included as the backend sent it. -/
def mkBackendFailureBody (b : BackendResponse) : RespBody :=
  .envelope
    (match b.success with | some s => s | none => false)
    (match b.message with
      | some m => if m == "" then "Error processing file with backend." else m
      | none => "Error processing file with backend.")
    b.data

/-- The 400 response of lines 83–85, sent when `files.eventLogFile` is
absent, an array, or has a falsy `filepath`; note that no unlink happens
on this path. -/
def noSingleFileOutcome : Outcome :=
  { status := 400, allow := none,
    body := .msgOnly "No file uploaded or multiple files received. Please upload a single event log file.",
    events := [.respond] }

/-- The handler of `src/frontend/pages/api/upload.ts`, translated branch by
branch.  Event order mirrors JavaScript evaluation order: on the explicit
cleanup paths (invalid file type, missing backend URL) `fs.unlinkSync` runs
before `res.json`; on the paths that go through the `try`/`finally` block
the `return res.status(...).json(...)` expression is evaluated first and the
`finally` clause's unlink runs after it. -/
def handler (req : Request) : Outcome :=
  if req.method != "POST" then
    { status := 405, allow := some ["POST"],
      body := .msgOnly "Method Not Allowed", events := [.respond] }
  else if req.userId.isNone then
    { status := 401, allow := none,
      body := .msgOnly "Unauthorized: No user ID found.", events := [.respond] }
  else if req.token.isNone then
    { status := 401, allow := none,
      body := .msgOnly "Unauthorized: No token available.", events := [.respond] }
  else
    match req.dirCreation with
    | .error _ =>
      { status := 500, allow := none,
        body := .msgOnly "Server configuration error for file uploads.",
        events := [.respond] }
    | .ok _ =>
      match req.parseResult with
      | .error e =>
        { status := 500, allow := none,
          body := .msgOnly ("File upload failed: " ++ e), events := [.respond] }
      | .ok ff =>
        match ff with
        | .missing => noSingleFileOutcome
        | .multiple _ => noSingleFileOutcome
        | .single f =>
          if f.filepath == "" then noSingleFileOutcome
          else
            let fileExt := extnameLower (f.originalFilename.getD "")
            if invalidFileCond f.mimetype fileExt then
              { status := 400, allow := none,
                body := .msgOnly
                  ("Invalid file type. Please upload a .csv, .xes, or .xlsx file. Received: "
                    ++ receivedOf f.mimetype fileExt),
                events := [.unlink f.filepath, .respond] }
            else if !(strTruthy req.backendApiUrl) then
              { status := 500, allow := none,
                body := .msgOnly "Server configuration error: Backend API URL missing.",
                events := [.unlink f.filepath, .respond] }
            else
              match req.fetchResult with
              | .transportError m =>
                { status := 502, allow := none,
                  body := .msgOnly
                    ("Bad Gateway: Could not connect to backend service. " ++ m),
                  events := [.respond, .unlink f.filepath] }
              | .reply st b =>
                if resOk st then
                  { status := 200, allow := none,
                    body := .passthrough b, events := [.respond, .unlink f.filepath] }
                else
                  { status := st, allow := none,
                    body := mkBackendFailureBody b,
                    events := [.respond, .unlink f.filepath] }

/-- The filesystem paths formidable staged to disk for this request: none
before the parse stage is reached or when parsing fails, otherwise the
`filepath` of every file reported in `files.eventLogFile`. -/
def stagedPaths (req : Request) : List String :=
  if req.method != "POST" then []
  else if req.userId.isNone then []
  else if req.token.isNone then []
  else
    match req.dirCreation with
    | .error _ => []
    | .ok _ =>
      match req.parseResult with
      | .error _ => []
      | .ok .missing => []
      | .ok (.single f) => [f.filepath]
      | .ok (.multiple fs) => fs.map (fun f => f.filepath)

/-- The paths the handler unlinked, in order. -/
def unlinkedPaths (o : Outcome) : List String :=
  o.events.filterMap (fun e => match e with | .unlink p => some p | .respond => none)

/-- `true` when the JSON body carries a nonempty `message` field. -/
def hasNonemptyMessage : RespBody → Bool
  | .msgOnly m => !(m == "")
  | .envelope _ m _ => !(m == "")
  | .passthrough b => match b.message with | some m => !(m == "") | none => false

/-- The `success` field of the JSON body, when present. -/
def bodySuccessField : RespBody → Option Bool
  | .msgOnly _ => none
  | .envelope s _ _ => some s
  | .passthrough b => b.success

/-! ## Helper lemmas -/

/-- Appending to a nonempty string yields a nonempty string (`==` form). -/
theorem beq_empty_append_eq_false (s t : String) (hs : 0 < s.length) :
    ((s ++ t) == "") = false := by
  rw [beq_eq_false_iff_ne]
  intro h
  have h2 : (s ++ t).length = 0 := by rw [h]; rfl
  rw [String.length_append] at h2
  omega

/-- A message built by appending to a nonempty literal is nonempty. -/
theorem msgOnly_append_nonemptyMsg (s t : String) (hs : 0 < s.length) :
    hasNonemptyMessage (.msgOnly (s ++ t)) = true := by
  simp [hasNonemptyMessage, beq_empty_append_eq_false s t hs]

/-- The backend-failure envelope always carries a nonempty message: either
the backend's own nonempty message or the fixed fallback string. -/
theorem mkBackendFailureBody_nonemptyMsg (b : BackendResponse) :
    hasNonemptyMessage (mkBackendFailureBody b) = true := by
  obtain ⟨s, msg, d⟩ := b
  cases msg with
  | none => rfl
  | some m =>
    cases hm : (m == "") with
    | true => simp [mkBackendFailureBody, hasNonemptyMessage, hm]
    | false => simp [mkBackendFailureBody, hasNonemptyMessage, hm]

/-- A rejected file makes the line-94 condition true. -/
theorem invalidFileCond_of_not_accepts {fn mt : Option String}
    (h : acceptsFile fn mt = false) :
    invalidFileCond mt (extnameLower (fn.getD "")) = true := by
  simpa [acceptsFile] using h

/-- An accepted file makes the line-94 condition false. -/
theorem invalidFileCond_of_accepts {fn mt : Option String}
    (h : acceptsFile fn mt = true) :
    invalidFileCond mt (extnameLower (fn.getD "")) = false := by
  simpa [acceptsFile] using h

/-- Every handler outcome is either the 200 success forward or carries a
nonempty `message` in its body (case analysis over every branch). -/
theorem handler_status_or_message (req : Request) :
    (handler req).status = 200 ∨ hasNonemptyMessage (handler req).body = true := by
  obtain ⟨m, u, t, d, p, url, fr⟩ := req
  simp only [handler]
  repeat' split
  all_goals first
    | (left; rfl)
    | (right; rfl)
    | (right; exact msgOnly_append_nonemptyMsg _ _ (by decide))
    | (right; exact mkBackendFailureBody_nonemptyMsg _)

/-! ## Concrete fixtures -/

/-- A valid staged `.csv` file as formidable reports it. -/
def csvFile : UploadedFile :=
  { filepath := "/tmp/uploads/x.csv", originalFilename := some "data.csv",
    mimetype := some "text/csv" }

/-- An authenticated POST request whose multipart body carried two files
under the `eventLogFile` field, so formidable staged both and reported an
array. -/
def multiFileReq : Request :=
  { method := "POST", userId := some "user_1", token := some "tok",
    dirCreation := .ok (),
    parseResult := .ok (.multiple
      [{ filepath := "/tmp/uploads/a.csv", originalFilename := some "a.csv",
         mimetype := some "text/csv" },
       { filepath := "/tmp/uploads/b.csv", originalFilename := some "b.csv",
         mimetype := some "text/csv" }]),
    backendApiUrl := some "http://backend/api",
    fetchResult := .reply 200 { success := some true, message := some "ok", data := none } }

/-! ## Claims -/

/-- C1: the claim states that on every terminal path, including the
zero-or-multiple-file rejection, the staged file is unlinked exactly once
before the response is sent.  This theorem evaluates the handler at the
failing input: a request that staged two files (multiple files under the
`eventLogFile` field) is answered 400 with no unlink at all, so both staged
files persist after the response. -/
theorem C1_multi_file_reject_leaks_staged_files :
    (handler multiFileReq).status = 400 ∧
    unlinkedPaths (handler multiFileReq) = [] ∧
    stagedPaths multiFileReq = ["/tmp/uploads/a.csv", "/tmp/uploads/b.csv"] :=
  ⟨rfl, rfl, rfl⟩

/-- C2: a POST request with no user id, or with a user id but no obtainable
token, is answered 401; the outcome is the same for every directory-creation
outcome, parse outcome and fetch outcome (so none of them is reached), no
unlink event occurs, and no file is staged. -/
theorem C2_unauthenticated_never_stages (u t : Option String)
    (d : Except String Unit) (p : Except String FileField)
    (url : Option String) (fr : FetchResult)
    (h : u = none ∨ t = none) :
    (handler ⟨"POST", u, t, d, p, url, fr⟩).status = 401 ∧
    (handler ⟨"POST", u, t, d, p, url, fr⟩).events = [.respond] ∧
    stagedPaths ⟨"POST", u, t, d, p, url, fr⟩ = [] := by
  rcases h with h | h
  · subst h
    exact ⟨rfl, rfl, rfl⟩
  · subst h
    cases u with
    | none => exact ⟨rfl, rfl, rfl⟩
    | some s => exact ⟨rfl, rfl, rfl⟩

/-- C2 witness: the theorem at a concrete unauthenticated request. -/
theorem C2_unauthenticated_never_stages_witness :
    (handler ⟨"POST", none, none, .ok (), .error "boom", none, .transportError "e"⟩).status = 401 ∧
    (handler ⟨"POST", none, none, .ok (), .error "boom", none, .transportError "e"⟩).events = [.respond] ∧
    stagedPaths ⟨"POST", none, none, .ok (), .error "boom", none, .transportError "e"⟩ = [] :=
  C2_unauthenticated_never_stages none none (.ok ()) (.error "boom") none
    (.transportError "e") (Or.inl rfl)

/-- C9: a request whose method is not POST is answered 405 with the `Allow`
header set to POST and a message body; the outcome is identical for every
authentication, directory, parse and fetch outcome, and no unlink occurs. -/
theorem C9_non_post_method_rejected (m : String) (u t : Option String)
    (d : Except String Unit) (p : Except String FileField)
    (url : Option String) (fr : FetchResult)
    (h : m ≠ "POST") :
    handler ⟨m, u, t, d, p, url, fr⟩ =
      { status := 405, allow := some ["POST"],
        body := .msgOnly "Method Not Allowed", events := [.respond] } := by
  have hb : (m != "POST") = true := by simpa using h
  simp [handler, hb]

/-- C9 witness: the theorem at a concrete GET request. -/
theorem C9_non_post_method_rejected_witness :
    handler ⟨"GET", some "user_1", some "tok", .ok (), .ok (.single csvFile),
        some "http://backend/api", .transportError "e"⟩ =
      { status := 405, allow := some ["POST"],
        body := .msgOnly "Method Not Allowed", events := [.respond] } :=
  C9_non_post_method_rejected "GET" (some "user_1") (some "tok") (.ok ())
    (.ok (.single csvFile)) (some "http://backend/api") (.transportError "e")
    (by decide)

/-- An authenticated POST request whose multipart parse failed (for example
the 100 MB `maxFileSize` ceiling was exceeded). -/
def parseErrorReq : Request :=
  { method := "POST", userId := some "user_1", token := some "tok",
    dirCreation := .ok (),
    parseResult := .error "options.maxFileSize (104857600 bytes) exceeded",
    backendApiUrl := some "http://backend/api",
    fetchResult := .transportError "unused" }

/-- C7 counterexample: the claim says a malformed multipart body is answered
400; at a concrete parse failure the handler answers 500, not 400. -/
theorem C7_parse_error_is_500_not_400 :
    (handler parseErrorReq).status = 500 ∧ ¬((handler parseErrorReq).status = 400) :=
  ⟨rfl, by decide⟩

/-- C7 amended: a request whose multipart body fails to parse is answered
HTTP 500 (not 400) with the message `File upload failed: <error>`, and no
unlink occurs on this path. -/
theorem C7_parse_error_response (u t : String) (url : Option String)
    (fr : FetchResult) (e : String) :
    handler ⟨"POST", some u, some t, .ok (), .error e, url, fr⟩ =
      { status := 500, allow := none,
        body := .msgOnly ("File upload failed: " ++ e), events := [.respond] } :=
  rfl

/-- C3 counterexample: the claim says a file whose extension is in the
allow-set is accepted even when the declared content-type is missing; but
`data.csv` with no declared content-type is rejected, because line 94
rejects whenever `mimetype` is falsy, before the extension is consulted. -/
theorem C3_allowed_extension_missing_mimetype_rejected :
    extnameLower "data.csv" = ".csv" ∧
    allowedExtensions.contains ".csv" = true ∧
    acceptsFile (some "data.csv") none = false :=
  ⟨rfl, rfl, rfl⟩

/-- C3 amended: the validator accepts a file iff the declared content-type
is present and truthy AND (the content-type is in the MIME allow-set OR the
filename's extension is in {.csv, .xes, .xlsx}); a file with an allowed
extension but a missing content-type is rejected.  A rejected file is
answered 400 with the offending content-type or extension reported in the
message, and its staged copy is unlinked before the response. -/
theorem C3_validator_accept_rule :
    (∀ fn mt, acceptsFile fn mt =
      (strTruthy mt &&
        (allowedMimeTypes.contains (mt.getD "") ||
         allowedExtensions.contains (extnameLower (fn.getD ""))))) ∧
    (∀ (u t : String) (url : Option String) (fr : FetchResult) (f : UploadedFile),
      (f.filepath == "") = false →
      acceptsFile f.originalFilename f.mimetype = false →
      (handler ⟨"POST", some u, some t, .ok (), .ok (.single f), url, fr⟩).status = 400 ∧
      (handler ⟨"POST", some u, some t, .ok (), .ok (.single f), url, fr⟩).body =
        .msgOnly ("Invalid file type. Please upload a .csv, .xes, or .xlsx file. Received: "
          ++ receivedOf f.mimetype (extnameLower (f.originalFilename.getD ""))) ∧
      (handler ⟨"POST", some u, some t, .ok (), .ok (.single f), url, fr⟩).events =
        [.unlink f.filepath, .respond]) := by
  constructor
  · intro fn mt
    simp [acceptsFile, invalidFileCond, Bool.not_or, Bool.not_and, Bool.not_not]
  · intro u t url fr f hfp hacc
    have hinv := invalidFileCond_of_not_accepts hacc
    refine ⟨?_, ?_, ?_⟩ <;> simp [handler, hfp, hinv]

/-- A staged `report.pdf` upload with content-type `application/pdf`. -/
def pdfFile : UploadedFile :=
  { filepath := "/tmp/uploads/r.pdf", originalFilename := some "report.pdf",
    mimetype := some "application/pdf" }

/-- C3 witness: the amended rejection branch at a concrete `report.pdf`
upload with content-type `application/pdf`. -/
theorem C3_validator_accept_rule_witness :
    (handler ⟨"POST", some "user_1", some "tok", .ok (), .ok (.single pdfFile),
        some "http://backend/api",
        .reply 200 { success := some true, message := some "ok", data := none }⟩).status = 400 ∧
    (handler ⟨"POST", some "user_1", some "tok", .ok (), .ok (.single pdfFile),
        some "http://backend/api",
        .reply 200 { success := some true, message := some "ok", data := none }⟩).body =
      .msgOnly ("Invalid file type. Please upload a .csv, .xes, or .xlsx file. Received: "
        ++ receivedOf pdfFile.mimetype (extnameLower (pdfFile.originalFilename.getD ""))) ∧
    (handler ⟨"POST", some "user_1", some "tok", .ok (), .ok (.single pdfFile),
        some "http://backend/api",
        .reply 200 { success := some true, message := some "ok", data := none }⟩).events =
      [.unlink pdfFile.filepath, .respond] :=
  C3_validator_accept_rule.2 "user_1" "tok" (some "http://backend/api")
    (.reply 200 { success := some true, message := some "ok", data := none })
    pdfFile rfl rfl

/-- An authenticated POST request with a valid `.csv` file whose backend
reply has a success status but no `data` field at all. -/
def successNoDataReq : Request :=
  { method := "POST", userId := some "user_1", token := some "tok",
    dirCreation := .ok (), parseResult := .ok (.single csvFile),
    backendApiUrl := some "http://backend/api",
    fetchResult := .reply 200 { success := some true, message := some "ok", data := none } }

/-- C4 counterexample: the claim says a success-status reply lacking a
well-formed `data` field is reclassified as a 500-class error; at a concrete
reply with status 200 and no `data` at all, the handler answers 200 and
forwards the body verbatim instead. -/
theorem C4_success_without_data_forwarded :
    successNoDataReq.fetchResult =
      .reply 200 { success := some true, message := some "ok", data := none } ∧
    (handler successNoDataReq).status = 200 ∧
    ¬((handler successNoDataReq).status = 500) ∧
    (handler successNoDataReq).body =
      .passthrough { success := some true, message := some "ok", data := none } :=
  ⟨rfl, rfl, by decide, rfl⟩

/-- C4 amended: whenever the backend reply's HTTP status indicates success
(200–299), the handler answers 200 and forwards the parsed body verbatim,
performing no well-formedness check on `data` — a success reply with missing
or malformed `data` is forwarded, never reclassified as a 500-class error. -/
theorem C4_success_status_forwards_verbatim (u t : String) (f : UploadedFile)
    (url : String) (st : Nat) (b : BackendResponse)
    (hfp : (f.filepath == "") = false)
    (hacc : acceptsFile f.originalFilename f.mimetype = true)
    (hurl : (url == "") = false)
    (hok : resOk st = true) :
    handler ⟨"POST", some u, some t, .ok (), .ok (.single f), some url, .reply st b⟩ =
      { status := 200, allow := none, body := .passthrough b,
        events := [.respond, .unlink f.filepath] } := by
  have hinv := invalidFileCond_of_accepts hacc
  simp [handler, hfp, hinv, hurl, hok, strTruthy]

/-- C4 witness: the amended theorem at a concrete 201 reply with absent
`data`. -/
theorem C4_success_status_forwards_verbatim_witness :
    handler ⟨"POST", some "user_1", some "tok", .ok (), .ok (.single csvFile),
        some "http://backend/api",
        .reply 201 { success := some true, message := some "created", data := none }⟩ =
      { status := 200, allow := none,
        body := .passthrough { success := some true, message := some "created", data := none },
        events := [.respond, .unlink "/tmp/uploads/x.csv"] } :=
  C4_success_status_forwards_verbatim "user_1" "tok" csvFile "http://backend/api" 201
    { success := some true, message := some "created", data := none } rfl rfl rfl rfl

/-- An unauthenticated POST request (no user id). -/
def unauthReq : Request :=
  { method := "POST", userId := none, token := none, dirCreation := .ok (),
    parseResult := .ok .missing, backendApiUrl := none,
    fetchResult := .transportError "unused" }

/-- C5 counterexample: the claim says every failure body carries a
`success` flag equal to false; the 401 body of an unauthenticated request
is a bare `{ message }` object with no `success` field at all. -/
theorem C5_unauthenticated_body_lacks_success_flag :
    (handler unauthReq).status = 401 ∧
    bodySuccessField (handler unauthReq).body = none :=
  ⟨rfl, rfl⟩

/-- C5 amended: every response whose status is not 200 carries a JSON body
with a nonempty human-readable `message`; the `success` flag, however, is
present only on the forwarded backend-failure envelope — the other failure
bodies are message-only. -/
theorem C5_every_failure_has_message (req : Request)
    (h : (handler req).status ≠ 200) :
    hasNonemptyMessage (handler req).body = true := by
  rcases handler_status_or_message req with h200 | hmsg
  · exact absurd h200 h
  · exact hmsg

/-- C5 witness: the amended theorem at the concrete unauthenticated
request, whose status is 401. -/
theorem C5_every_failure_has_message_witness :
    hasNonemptyMessage (handler unauthReq).body = true :=
  C5_every_failure_has_message unauthReq (by decide)

/-- C6: when the backend reply's status is outside 200–299, the handler
forwards that same status, the backend's own `success` flag and `message`
(here present and nonempty), and passes the backend's `data` — including a
partial result — through unchanged in the envelope. -/
theorem C6_backend_failure_forwarded (u t : String) (f : UploadedFile)
    (url : String) (st : Nat) (b : BackendResponse) (s : Bool) (msg : String)
    (hfp : (f.filepath == "") = false)
    (hacc : acceptsFile f.originalFilename f.mimetype = true)
    (hurl : (url == "") = false)
    (hok : resOk st = false)
    (hs : b.success = some s)
    (hm : b.message = some msg)
    (hmne : (msg == "") = false) :
    handler ⟨"POST", some u, some t, .ok (), .ok (.single f), some url, .reply st b⟩ =
      { status := st, allow := none, body := .envelope s msg b.data,
        events := [.respond, .unlink f.filepath] } := by
  have hinv := invalidFileCond_of_accepts hacc
  simp [handler, hfp, hinv, hurl, hok, strTruthy, mkBackendFailureBody, hs, hm, hmne]

/-- The partial `data` of Scenario F: `processGraph` present with empty
node and link lists, `llmInsights` explicitly null. -/
def partialData : Json :=
  .obj [("processGraph", .obj [("nodes", .arr []), ("links", .arr [])]),
        ("llmInsights", .null)]

/-- C6 witness: a 500 reply with `success` false and partial `data`
(`processGraph` present, `llmInsights` null) is forwarded with status 500
and the `data` unchanged.  (A literal 207 status would not exercise this
path: 207 lies in the 200–299 range that `backendResponse.ok` treats as
success, so a 207 reply is forwarded verbatim with status 200 instead.) -/
theorem C6_backend_failure_forwarded_witness :
    handler ⟨"POST", some "user_1", some "tok", .ok (), .ok (.single csvFile),
        some "http://backend/api",
        .reply 500 { success := some false, message := some "partial",
                     data := some partialData }⟩ =
      { status := 500, allow := none,
        body := .envelope false "partial" (some partialData),
        events := [.respond, .unlink "/tmp/uploads/x.csv"] } :=
  C6_backend_failure_forwarded "user_1" "tok" csvFile "http://backend/api" 500
    { success := some false, message := some "partial", data := some partialData }
    false "partial" rfl rfl rfl rfl rfl rfl rfl

/-- An authenticated POST request with a valid `.csv` file whose `fetch` to
the backend threw (connection refused). -/
def transportFailReq : Request :=
  { method := "POST", userId := some "user_1", token := some "tok",
    dirCreation := .ok (), parseResult := .ok (.single csvFile),
    backendApiUrl := some "http://backend/api",
    fetchResult := .transportError "fetch failed" }

/-- C8 counterexample: the claim says the staged file is removed before the
response is sent; on the transport-failure path the response write is
evaluated first (the `return` expression) and the `finally` clause's unlink
runs after it, so the event trace places the unlink after the respond. -/
theorem C8_unlink_after_response_on_transport_failure :
    (handler transportFailReq).status = 502 ∧
    (handler transportFailReq).events = [.respond, .unlink "/tmp/uploads/x.csv"] :=
  ⟨rfl, rfl⟩

/-- C8 amended: a connection-level failure of the relay is answered 502
with a gateway-failure message carrying the underlying cause, and the
staged file is unlinked exactly once — in the `finally` step, after the
response write, before the handler completes. -/
theorem C8_transport_failure_response (u t : String) (f : UploadedFile)
    (url m : String)
    (hfp : (f.filepath == "") = false)
    (hacc : acceptsFile f.originalFilename f.mimetype = true)
    (hurl : (url == "") = false) :
    handler ⟨"POST", some u, some t, .ok (), .ok (.single f), some url,
        .transportError m⟩ =
      { status := 502, allow := none,
        body := .msgOnly ("Bad Gateway: Could not connect to backend service. " ++ m),
        events := [.respond, .unlink f.filepath] } := by
  have hinv := invalidFileCond_of_accepts hacc
  simp [handler, hfp, hinv, hurl, strTruthy]

/-- C8 witness: the amended theorem at a concrete refused connection. -/
theorem C8_transport_failure_response_witness :
    handler ⟨"POST", some "user_1", some "tok", .ok (), .ok (.single csvFile),
        some "http://backend/api", .transportError "ECONNREFUSED"⟩ =
      { status := 502, allow := none,
        body := .msgOnly ("Bad Gateway: Could not connect to backend service. "
          ++ "ECONNREFUSED"),
        events := [.respond, .unlink "/tmp/uploads/x.csv"] } :=
  C8_transport_failure_response "user_1" "tok" csvFile "http://backend/api"
    "ECONNREFUSED" rfl rfl rfl

/-- C10: on every backend-failure forward the body is an envelope carrying
both a `success` flag and a `message` (neither is ever absent), the `data`
is the backend's own; and independently, whenever the reply omits `success`
the forwarded flag is `false`, and whenever the reply omits `message` the
forwarded message is the fixed string `Error processing file with
backend.`. -/
theorem C10_backend_failure_defaults (u t : String) (f : UploadedFile)
    (url : String) (st : Nat) (b : BackendResponse)
    (hfp : (f.filepath == "") = false)
    (hacc : acceptsFile f.originalFilename f.mimetype = true)
    (hurl : (url == "") = false)
    (hok : resOk st = false) :
    ∃ s msg,
      (handler ⟨"POST", some u, some t, .ok (), .ok (.single f), some url,
          .reply st b⟩).body = .envelope s msg b.data ∧
      (b.success = none → s = false) ∧
      (b.message = none → msg = "Error processing file with backend.") := by
  have hinv := invalidFileCond_of_accepts hacc
  have hbody : (handler ⟨"POST", some u, some t, .ok (), .ok (.single f),
      some url, .reply st b⟩).body = mkBackendFailureBody b := by
    simp [handler, hfp, hinv, hurl, hok, strTruthy]
  obtain ⟨bs, bm, bd⟩ := b
  rw [hbody]
  cases bs with
  | none =>
    cases bm with
    | none =>
      exact ⟨false, "Error processing file with backend.", rfl,
        fun _ => rfl, fun _ => rfl⟩
    | some m =>
      exact ⟨false, if m == "" then "Error processing file with backend." else m,
        rfl, fun _ => rfl, fun h => Option.noConfusion h⟩
  | some s0 =>
    cases bm with
    | none =>
      exact ⟨s0, "Error processing file with backend.", rfl,
        fun h => Option.noConfusion h, fun _ => rfl⟩
    | some m =>
      exact ⟨s0, if m == "" then "Error processing file with backend." else m,
        rfl, fun h => Option.noConfusion h, fun h => Option.noConfusion h⟩

/-- C10 witness: the theorem at a concrete 500 reply that omits `success`
but carries its own `message`; the handler substitutes `success = false`
while keeping the backend's message inside the envelope body. -/
theorem C10_backend_failure_defaults_witness :
    ∃ s msg,
      (handler ⟨"POST", some "user_1", some "tok", .ok (), .ok (.single csvFile),
          some "http://backend/api",
          .reply 500 { success := none, message := some "backend exploded",
                       data := none }⟩).body = .envelope s msg none ∧
      ((none : Option Bool) = none → s = false) ∧
      ((some "backend exploded" : Option String) = none →
        msg = "Error processing file with backend.") :=
  C10_backend_failure_defaults "user_1" "tok" csvFile "http://backend/api" 500
    { success := none, message := some "backend exploded", data := none }
    rfl rfl rfl rfl
